import Mathlib

/-!
Verification of the trainjatri-backend core against its specification.

Shallow embedding conventions:
* Clock times ("H:MM am/pm [BST]") are parsed to minutes since midnight
  (`Nat`); the scheduler compares times at minute granularity, which is the
  granularity of every scheduled time in the data.
* Python dicts keyed by strings are embedded as association lists
  (`List (String × _)`); insertion appends, update replaces in place, which
  matches CPython dict ordering semantics.
* Randomness (random.random / randint / uniform / choices draws) is passed in
  explicitly as parameters or streams of draws.
* Python floats are embedded as exact rationals (`ℚ`); every property proved
  below is robust to this (bounds come from explicit clamps, and reported
  factors are table lookups, not derived float arithmetic).
* Exceptions that the source catches are embedded as the fallback value the
  handler returns; fallible lookups return `Option`/`Except`.
-/

namespace TrainJatri

/-- Numeric value of a decimal digit character, `none` for non-digits. -/
def digitVal (c : Char) : Option Nat :=
  if c.isDigit then some (c.toNat - 48) else none

/-- Embedding of Python `str.replace(' BST', '')`: remove every (non
overlapping, leftmost-first) occurrence of the four characters " BST". -/
def stripBSTList : List Char → List Char
  | [] => []
  | ' ' :: 'B' :: 'S' :: 'T' :: rest => stripBSTList rest
  | c :: rest => c :: stripBSTList rest

/-- Embedding of Python `str.strip()`: drop whitespace from both ends. -/
def trimList (l : List Char) : List Char :=
  ((l.dropWhile Char.isWhitespace).reverse.dropWhile Char.isWhitespace).reverse

/-- Hour field of `strptime('%I:%M %p')` (regex alternation
`1[0-2]|0[1-9]|[1-9]` followed by the literal colon): one or two leading
digits with value 1..12; "00" and values above 12 fail, and when two digits
are present the single-digit alternative cannot succeed because the following
character would have to be both a digit and the colon. -/
def parseHourPart : List Char → Option (Nat × List Char)
  | c1 :: c2 :: rest =>
    match digitVal c1, digitVal c2 with
    | some d1, some d2 =>
      let v := 10 * d1 + d2
      if 1 ≤ v ∧ v ≤ 12 then some (v, rest) else none
    | some d1, none => if 1 ≤ d1 then some (d1, c2 :: rest) else none
    | none, _ => none
  | [c1] =>
    match digitVal c1 with
    | some d1 => if 1 ≤ d1 then some (d1, []) else none
    | none => none
  | [] => none

/-- Minute field of `strptime('%I:%M %p')` (regex `[0-5]\d|\d` followed by
mandatory whitespace): two digits 00..59, or a single digit; when two digits
are present but the value is out of range the single-digit alternative cannot
succeed because the next character would have to be both a digit and
whitespace. -/
def parseMinutePart : List Char → Option (Nat × List Char)
  | c1 :: c2 :: rest =>
    match digitVal c1, digitVal c2 with
    | some d1, some d2 => if d1 ≤ 5 then some (10 * d1 + d2, rest) else none
    | some d1, none => some (d1, c2 :: rest)
    | none, _ => none
  | [c1] => (digitVal c1).map (fun d => (d, ([] : List Char)))
  | [] => none

/-- Whitespace run (`\s+`) between the minute field and the am/pm field. -/
def parseSpaces : List Char → Option (List Char)
  | c :: rest =>
    if c.isWhitespace then some (rest.dropWhile Char.isWhitespace) else none
  | [] => none

/-- The am/pm field of `strptime('%I:%M %p')`, matched case-insensitively
against the remaining input, which must be consumed entirely (strptime
rejects trailing characters). Returns `true` for pm. -/
def parseAmPm : List Char → Option Bool
  | [c1, c2] =>
    if (c1 = 'a' ∨ c1 = 'A') ∧ (c2 = 'm' ∨ c2 = 'M') then some false
    else if (c1 = 'p' ∨ c1 = 'P') ∧ (c2 = 'm' ∨ c2 = 'M') then some true
    else none
  | _ => none

/-- Full `strptime('%I:%M %p')` on a character list, returning minutes since
midnight (12-hour clock converted to 24-hour: 12am ↦ 00, 12pm ↦ 12). -/
def clockMinutes (l : List Char) : Option Nat := do
  let (hh, r1) ← parseHourPart l
  match r1 with
  | ':' :: r2 => do
    let (mm, r3) ← parseMinutePart r2
    let r4 ← parseSpaces r3
    let pm ← parseAmPm r4
    let h24 := if pm then (if hh = 12 then 12 else hh + 12)
               else (if hh = 12 then 0 else hh)
    pure (h24 * 60 + mm)
  | _ => none

/-- Embedding of `PositionCalculator._parse_time_string` /
`DelaySimulator._parse_time_string`: strip the " BST" suffix, strip
surrounding whitespace, then parse with `strptime('%I:%M %p')`; any parse
failure (caught by the handler in the source) yields `none`. -/
def _parse_time_string (s : String) : Option Nat :=
  clockMinutes (trimList (stripBSTList s.toList))

/-- Embedding of `TrainTimelineGenerator._parse_time_string`: additionally
returns `none` up front for a missing value, the empty string, or the
placeholder "---" before delegating to the same strptime logic. -/
def tl_parse_time_string : Option String → Option Nat
  | none => none
  | some s => if s = "" ∨ s = "---" then none else _parse_time_string s

/-- A stop of a train route as stored in the schedule JSON. `none` in an
optional field embeds both a missing key and a Python-falsy value. -/
structure RouteStop where
  city : String
  arrival_time : Option String := none
  departure_time : Option String := none
  halt : Option String := none
  duration : Option String := none
deriving Repr, DecidableEq

/-- Loop body of `PositionCalculator._find_current_station_index`: walk the
route with running index `i`; a stop with a present, truthy departure string
that parses to a time strictly after `current_time` returns `max 0 (i-1)`;
parse failures are swallowed (`except: continue`); falling off the end
returns `len - 1`. -/
def pcScanGo (now : Nat) (len : Nat) : Nat → List RouteStop → Int
  | _, [] => (len : Int) - 1
  | i, r :: rest =>
    match r.departure_time with
    | some ts =>
      if ts ≠ "" then
        match _parse_time_string ts with
        | some dt => if now < dt then max 0 ((i : Int) - 1) else pcScanGo now len (i + 1) rest
        | none => pcScanGo now len (i + 1) rest
      else pcScanGo now len (i + 1) rest
    | none => pcScanGo now len (i + 1) rest

/-- Embedding of `PositionCalculator._find_current_station_index` (the `None`
return of the source is the unreachable outer-exception path and is omitted:
the loop body cannot raise outside the inner try). -/
def _find_current_station_index (routes : List RouteStop) (current_time : Nat) : Int :=
  pcScanGo current_time routes.length 0 routes

/-- Loop body of `TrainTimelineGenerator._find_current_position`: identical
walk, but the parse goes through the timeline module's own parser (which
checks for "---" explicitly before strptime). -/
def tlScanGo (now : Nat) (len : Nat) : Nat → List RouteStop → Int
  | _, [] => (len : Int) - 1
  | i, r :: rest =>
    match r.departure_time with
    | some ts =>
      if ts ≠ "" then
        match tl_parse_time_string (some ts) with
        | some dt => if now < dt then max 0 ((i : Int) - 1) else tlScanGo now len (i + 1) rest
        | none => tlScanGo now len (i + 1) rest
      else tlScanGo now len (i + 1) rest
    | none => tlScanGo now len (i + 1) rest

/-- Embedding of `TrainTimelineGenerator._find_current_position` (the `0`
return of the source is the unreachable exception path and is omitted). -/
def _find_current_position (routes : List RouteStop) (current_time : Nat) : Int :=
  tlScanGo current_time routes.length 0 routes

/-- Decides whether a stop has a present, parseable departure time strictly
after `now` — the condition on which both scans stop. -/
def hasFutureDep (now : Nat) (r : RouteStop) : Bool :=
  match r.departure_time with
  | some ts =>
    (!(ts == "")) &&
      (match _parse_time_string ts with
       | some dt => decide (now < dt)
       | none => false)
  | none => false

/-- Index of the first stop with a future departure, if any. -/
def firstFutureIdx (now : Nat) : List RouteStop → Option Nat
  | [] => none
  | r :: rest =>
    if hasFutureDep now r then some 0 else (firstFutureIdx now rest).map (· + 1)

/-- Embedding of `TrainTimelineGenerator._determine_station_status`: tag a
station index against the position computed by the timeline module's own
time-of-day scan. -/
def _determine_station_status (station_idx : Nat) (routes : List RouteStop)
    (current_time : Nat) : String :=
  let current_position := _find_current_position routes current_time
  if (station_idx : Int) < current_position then "completed"
  else if (station_idx : Int) = current_position then "current"
  else if (station_idx : Int) = current_position + 1 then "next"
  else "upcoming"

/-- The three-stop route of the specification's end-to-end scenario (§8):
StationA departs 09:00 am, StationB arrives 10:00 am and departs 10:05 am,
StationC arrives 11:00 am and has no departure time. -/
def exampleRoute : List RouteStop :=
  [ { city := "StationA", departure_time := some "09:00 am BST" },
    { city := "StationB", arrival_time := some "10:00 am BST",
      departure_time := some "10:05 am BST" },
    { city := "StationC", arrival_time := some "11:00 am BST" } ]

/-- Truncation toward zero: Python `int()` applied to a numeric value. -/
def pyInt (q : ℚ) : Int := if q < 0 then -⌊-q⌋ else ⌊q⌋

/-- Python `round(x, n)` modelled on exact rationals (round half to even). -/
def pyRound (n : Nat) (q : ℚ) : ℚ :=
  let scaled := q * (10 ^ n : ℚ)
  let fl := ⌊scaled⌋
  let frac := scaled - (fl : ℚ)
  let r : Int :=
    if frac < 1/2 then fl
    else if 1/2 < frac then fl + 1
    else if fl % 2 = 0 then fl else fl + 1
  (r : ℚ) / (10 ^ n : ℚ)

/-- Weather impact factors of `DelaySimulator.__init__`. -/
def weather_factors : List (String × ℚ) :=
  [("clear", 1), ("cloudy", 6/5), ("rainy", 3/2), ("stormy", 2), ("foggy", 9/5)]

/-- Time-of-day factors of `DelaySimulator.__init__`. -/
def time_factors : List (String × ℚ) :=
  [("early_morning", 4/5), ("morning_rush", 7/5), ("mid_morning", 1),
   ("afternoon", 11/10), ("evening_rush", 8/5), ("late_evening", 6/5), ("night", 9/10)]

/-- Day-of-week factors of `DelaySimulator.__init__`. -/
def day_factors : List (String × ℚ) :=
  [("Monday", 13/10), ("Tuesday", 11/10), ("Wednesday", 1), ("Thursday", 11/10),
   ("Friday", 7/5), ("Saturday", 9/10), ("Sunday", 4/5)]

/-- Station-specific delay factors of `DelaySimulator.__init__` (insertion
order is significant: `_get_station_factor` returns the first match). -/
def station_delay_factors : List (String × ℚ) :=
  [("Dhaka", 3/2), ("Chattogram", 7/5), ("Rajshahi", 6/5), ("Khulna", 6/5),
   ("Sylhet", 11/10), ("Barisal", 11/10), ("Rangpur", 11/10), ("Mymensingh", 1)]

/-- Embedding of Python `dict.get(key, default)` over an association list. -/
def lookupD (l : List (String × ℚ)) (k : String) (d : ℚ) : ℚ :=
  (l.lookup k).getD d

/-- Embedding of `DelaySimulator._get_time_factor`. -/
def _get_time_factor (hour : Nat) : ℚ :=
  if 5 ≤ hour ∧ hour < 8 then lookupD time_factors "early_morning" 1
  else if 8 ≤ hour ∧ hour < 10 then lookupD time_factors "morning_rush" 1
  else if 10 ≤ hour ∧ hour < 12 then lookupD time_factors "mid_morning" 1
  else if 12 ≤ hour ∧ hour < 17 then lookupD time_factors "afternoon" 1
  else if 17 ≤ hour ∧ hour < 20 then lookupD time_factors "evening_rush" 1
  else if 20 ≤ hour ∧ hour < 22 then lookupD time_factors "late_evening" 1
  else lookupD time_factors "night" 1

/-- Embedding of `DelaySimulator._get_day_factor` (Python `dict.get` with
default 1.0 on the strftime day name). -/
def _get_day_factor (day_name : String) : ℚ := lookupD day_factors day_name 1

/-- Occurrence test for one character sequence inside another, embedding the
Python `in` operator on strings. -/
def seqContains (pat : List Char) : List Char → Bool
  | [] => pat.isEmpty
  | c :: rest => pat.isPrefixOf (c :: rest) || seqContains pat rest

/-- ASCII lowercasing of one character; every pattern and station name the
source compares is ASCII, where Python `str.lower` acts exactly like this. -/
def lowerChar (c : Char) : Char :=
  if 'A' ≤ c ∧ c ≤ 'Z' then Char.ofNat (c.toNat + 32) else c

/-- ASCII lowercasing of a character sequence (Python `str.lower()`). -/
def lowerList (l : List Char) : List Char := l.map lowerChar

/-- Loop of `DelaySimulator._get_station_factor` over the factor table. -/
def stationFactorGo (station_lower : List Char) : List (String × ℚ) → ℚ
  | [] => 1
  | (pat, f) :: rest =>
    if seqContains (lowerList pat.toList) station_lower then f
    else stationFactorGo station_lower rest

/-- Embedding of `DelaySimulator._get_station_factor`: first table pattern
whose lowercase form occurs in the lowercase station name, default 1.0. -/
def _get_station_factor (station_name : String) : ℚ :=
  stationFactorGo (lowerList station_name.toList) station_delay_factors

/-- One recorded delay observation: delay minutes plus the isoformat
timestamp string taken at recording time. -/
structure DelayObs where
  delay : Int
  timestamp : String
deriving Repr, DecidableEq

/-- Constructor shorthand for a delay observation. -/
def obsOf (d : Int) (ts : String) : DelayObs := ⟨d, ts⟩

/-- Per-train map from station name to its observation bucket. -/
abbrev StationHist := List (String × List DelayObs)

/-- The `historical_patterns` store: train number to station histories. -/
abbrev HistPatterns := List (String × StationHist)

/-- Embedding of a Python dict store `d[k] = v`: replace the first binding in
place, or append a new binding (CPython insertion-order semantics). -/
def setA {α : Type} (k : String) (v : α) : List (String × α) → List (String × α)
  | [] => [(k, v)]
  | (k2, v2) :: rest => if k2 = k then (k2, v) :: rest else (k2, v2) :: setA k v rest

/-- The (train, station) history bucket, empty when either level is absent. -/
def bucketOf (hist : HistPatterns) (train_number station : String) : List DelayObs :=
  (((hist.lookup train_number).getD []).lookup station).getD []

/-- Embedding of `DelaySimulator._update_historical_patterns`: append the new
observation to the (train, station) bucket (creating empty levels as needed)
and pop the oldest entry when the bucket exceeds 100. -/
def _update_historical_patterns (hist : HistPatterns) (train_number station : String)
    (delay : Int) (now_iso : String) : HistPatterns :=
  let trainHist := (hist.lookup train_number).getD []
  let delays := (trainHist.lookup station).getD []
  let delays2 := delays ++ [⟨delay, now_iso⟩]
  let delays3 := if delays2.length > 100 then delays2.drop 1 else delays2
  setA train_number (setA station delays3 trainHist) hist

/-- Random draws consumed by one `simulate_delay` call: the outcome of the
base-probability test, the randint(5, 25) draw, the uniform(0.8, 1.2) jitter
and the isoformat timestamp recorded with the observation. -/
structure SimEnv where
  delayHappens : Bool
  baseDraw : Nat
  randomFactor : ℚ
  nowISO : String
deriving Repr, DecidableEq

/-- Embedding of `DelaySimulator._calculate_base_delay`. -/
def _calculate_base_delay (env : SimEnv) : Nat :=
  if env.delayHappens then env.baseDraw else 0

/-- The four multiplier factors reported by `simulate_delay`. -/
structure FactorsApplied where
  weather : ℚ
  time_of_day : ℚ
  day_of_week : ℚ
  station : ℚ
deriving Repr, DecidableEq

/-- Result dict of `DelaySimulator.simulate_delay`. -/
structure DelayResult where
  delay_minutes : Int
  scheduled_time : Int
  actual_time : Int
  weather_condition : String
  factors_applied : FactorsApplied
deriving Repr, DecidableEq

/-- Embedding of `DelaySimulator.simulate_delay`: base delay scaled by the
four lookup factors and the random jitter, truncated to an integer, clamped
to [0, 120]; the result is appended to the (train, station) history bucket.
The current datetime is passed as its hour and strftime day name, the two
components the source reads. -/
def simulate_delay (hist : HistPatterns) (train_number current_station : String)
    (scheduled_time : Int) (current_hour : Nat) (current_day : String)
    (weather_condition : String) (env : SimEnv) : DelayResult × HistPatterns :=
  let base_delay : ℚ := (_calculate_base_delay env : ℚ)
  let weather_factor := lookupD weather_factors weather_condition 1
  let time_factor := _get_time_factor current_hour
  let day_factor := _get_day_factor current_day
  let station_factor := _get_station_factor current_station
  let d1 : ℚ := base_delay * weather_factor * time_factor * day_factor * station_factor
  let d2 : Int := pyInt (d1 * env.randomFactor)
  let final_delay : Int := max 0 (min d2 120)
  let actual_time := scheduled_time + final_delay
  let hist2 := _update_historical_patterns hist train_number current_station final_delay env.nowISO
  (⟨final_delay, scheduled_time, actual_time, weather_condition,
    ⟨weather_factor, time_factor, day_factor, station_factor⟩⟩, hist2)

/-- History states reachable by any sequence of simulate_delay calls from the
empty initial store. -/
inductive ReachableHist : HistPatterns → Prop
  | init : ReachableHist []
  | step (hist : HistPatterns) (train_number current_station : String)
      (scheduled_time : Int) (current_hour : Nat) (current_day : String)
      (weather_condition : String) (env : SimEnv) :
      ReachableHist hist →
      ReachableHist (simulate_delay hist train_number current_station scheduled_time
        current_hour current_day weather_condition env).2

/-- Statistics dict of `get_historical_delay_stats`. -/
structure DelayStats where
  total_delays : Nat
  average_delay : ℚ
  max_delay : Int
  min_delay : Int
  delay_distribution : List (String × Nat)
deriving Repr, DecidableEq

/-- Result of `get_historical_delay_stats`: either the stats dict or an
error dict carrying the given message. -/
inductive StatsResult
  | err (msg : String)
  | ok (stats : DelayStats)
deriving Repr, DecidableEq

/-- Python `max` over a nonempty list (the empty case raises in the source;
callers guard it). -/
def pyMaxList : List Int → Int
  | [] => 0
  | [x] => x
  | x :: rest => max x (pyMaxList rest)

/-- Python `min` over a nonempty list. -/
def pyMinList : List Int → Int
  | [] => 0
  | [x] => x
  | x :: rest => min x (pyMinList rest)

/-- Embedding of `DelaySimulator._get_delay_distribution`: per-range counts
of the delay list over the four fixed buckets. -/
def _get_delay_distribution (delays : List Int) : List (String × Nat) :=
  [("0-15 min", (delays.filter (fun d => decide (d ≤ 15))).length),
   ("16-30 min", (delays.filter (fun d => decide (15 < d ∧ d ≤ 30))).length),
   ("31-60 min", (delays.filter (fun d => decide (30 < d ∧ d ≤ 60))).length),
   ("60+ min", (delays.filter (fun d => decide (60 < d))).length)]

/-- Station dispatch inside `get_historical_delay_stats`: the delay list for
one station, or the concatenation over all stations of the train. -/
def statsDelays (trainHist : StationHist) : Option String → Except String (List Int)
  | some st =>
    match trainHist.lookup st with
    | none => Except.error "No data for this station"
    | some ds => Except.ok (ds.map DelayObs.delay)
  | none => Except.ok (((trainHist.map Prod.snd).flatten).map DelayObs.delay)

/-- Embedding of `DelaySimulator.get_historical_delay_stats`: an unknown
train, an unknown station, or an empty delay list each yield the explicit
error dict of the source; otherwise the descriptive statistics. -/
def get_historical_delay_stats (hist : HistPatterns) (train_number : String)
    (station : Option String) : StatsResult :=
  match hist.lookup train_number with
  | none => .err "No historical data available"
  | some trainHist =>
    match statsDelays trainHist station with
    | Except.error m => .err m
    | Except.ok delays =>
      match delays with
      | [] => .err "No delay data available"
      | d :: ds =>
        .ok ⟨(d :: ds).length,
             pyRound 1 (((d :: ds).sum : ℚ) / ((d :: ds).length : ℚ)),
             pyMaxList (d :: ds), pyMinList (d :: ds), _get_delay_distribution (d :: ds)⟩

/-- Result of `predict_delay_probability`: the error dict passed through from
the statistics call, the bare zero-history fallback dict (only the two keys
delay_probability and confidence), or the full prediction dict. -/
inductive PredictResult
  | err (msg : String)
  | fallback (delay_probability : ℚ) (confidence : String)
  | ok (delay_probability : ℚ) (confidence : String) (historical_data_points : Nat)
      (time_of_day day_of_week : ℚ)
deriving Repr, DecidableEq

/-- Embedding of `DelaySimulator.predict_delay_probability` for a concrete
station (the scheduled datetime is passed as its hour and strftime day name,
the two components the source reads). -/
def predict_delay_probability (hist : HistPatterns) (train_number station : String)
    (sched_hour : Nat) (sched_day : String) : PredictResult :=
  match get_historical_delay_stats hist train_number (some station) with
  | .err m => .err m
  | .ok stats =>
    if stats.total_delays = 0 then .fallback (3/10) "low"
    else
      let bucket := bucketOf hist train_number station
      let delayed_count := (bucket.filter (fun d => decide (0 < d.delay))).length
      let historical_probability : ℚ := (delayed_count : ℚ) / (stats.total_delays : ℚ)
      let time_factor := _get_time_factor sched_hour
      let day_factor := _get_day_factor sched_day
      let adjusted := historical_probability * time_factor * day_factor
      let adjusted2 := max (1/10) (min adjusted (9/10))
      let confidence := if 50 ≤ stats.total_delays then "high"
        else if 20 ≤ stats.total_delays then "medium" else "low"
      .ok (pyRound 3 adjusted2) confidence stats.total_delays time_factor day_factor

/-- A user confirmation record. Timestamps are absolute seconds; the source
stores isoformat strings, which round-trip through fromisoformat. -/
structure Confirmation where
  user_id : String
  timestamp : Int
  station_name : Option String
  coordinates : Option (ℚ × ℚ)
deriving Repr, DecidableEq

/-- Constructor shorthand for a confirmation. -/
def confOf (uid : String) (ts : Int) (st : Option String) (co : Option (ℚ × ℚ)) :
    Confirmation := ⟨uid, ts, st, co⟩

/-- Per-train validation record as persisted by CrowdValidation. -/
structure TrainValidation where
  confirmations : List Confirmation
  last_updated : Int
  total_confirmations : Nat
deriving Repr, DecidableEq

/-- The `validations` store: train number to its validation record. -/
abbrev Validations := List (String × TrainValidation)

/-- Embedding of `CrowdValidation._get_active_confirmations`: confirmations
whose timestamp is strictly after now minus two hours (7200 seconds). -/
def _get_active_confirmations (confirmations : List Confirmation) (now : Int) :
    List Confirmation :=
  confirmations.filter (fun c => decide (now - 7200 < c.timestamp))

/-- Embedding of `CrowdValidation._determine_crowd_level`. -/
def _determine_crowd_level (active_count : Nat) : String :=
  if active_count = 0 then "low"
  else if active_count ≤ 5 then "medium"
  else if active_count ≤ 15 then "high"
  else "very_high"

/-- The dict returned by `get_train_crowd_data`: exactly these six fields.
The source has no confidence field here. -/
structure CrowdData where
  train_number : String
  total_confirmations : Nat
  active_confirmations : Nat
  crowd_level : String
  last_updated : Option Int
  confirmations : List Confirmation
deriving Repr, DecidableEq

/-- Embedding of `CrowdValidation.get_train_crowd_data`. -/
def get_train_crowd_data (vals : Validations) (train_number : String) (now : Int) :
    CrowdData :=
  match vals.lookup train_number with
  | none => ⟨train_number, 0, 0, "low", none, []⟩
  | some td =>
    let active := _get_active_confirmations td.confirmations now
    ⟨train_number, td.total_confirmations, active.length,
     _determine_crowd_level active.length, some td.last_updated, active⟩

/-- Crowd metrics dict of `_calculate_crowd_metrics`. -/
structure CrowdMetrics where
  crowd_level : String
  confidence : String
  active_users : Nat
  average_time_since_confirmation : String
  data_freshness : String
deriving Repr, DecidableEq

/-- Embedding of `CrowdValidation._calculate_crowd_metrics`: confidence
derived from the active count, plus average staleness of the active
confirmations. -/
def _calculate_crowd_metrics (vals : Validations) (train_number : String) (now : Int) :
    CrowdMetrics :=
  let cd := get_train_crowd_data vals train_number now
  let active_count := cd.active_confirmations
  let confidence :=
    if active_count = 0 then "none"
    else if active_count ≤ 3 then "low"
    else if active_count ≤ 10 then "medium"
    else "high"
  let avg_minutes_ago : Int :=
    if cd.confirmations.isEmpty then 0
    else pyInt (((cd.confirmations.map (fun c => ((now - c.timestamp : Int) : ℚ))).sum
                  / (cd.confirmations.length : ℚ)) / 60)
  ⟨cd.crowd_level, confidence, active_count,
   toString avg_minutes_ago ++ " minutes ago",
   if avg_minutes_ago < 30 then "high"
   else if avg_minutes_ago < 60 then "medium" else "low"⟩

/-- Replace the fields of the first confirmation matching `user_id` — the
in-place `dict.update` on the entry found by the search loop. -/
def updateFirstConf (user_id : String) (ts : Int) (st : Option String)
    (co : Option (ℚ × ℚ)) : List Confirmation → List Confirmation
  | [] => []
  | c :: rest =>
    if c.user_id = user_id
    then { c with timestamp := ts, station_name := st, coordinates := co } :: rest
    else c :: updateFirstConf user_id ts st co rest

/-- Result dict of `confirm_user_on_train` (success path; the exception path
of the source cannot trigger on well-typed state). -/
structure ConfirmResult where
  success : Bool
  message : String
  train_number : String
  user_id : String
  timestamp : Int
  crowd_metrics : CrowdMetrics
deriving Repr, DecidableEq

/-- Embedding of `CrowdValidation.confirm_user_on_train`: create the train
record if absent, update the first confirmation with this user id in place,
or append a new confirmation and bump total_confirmations; metrics are
computed from the updated store. The `_save_validations` file write has no
effect on the in-memory state. -/
def confirm_user_on_train (vals : Validations) (train_number user_id : String)
    (station_name : Option String) (coordinates : Option (ℚ × ℚ)) (now : Int) :
    Validations × ConfirmResult :=
  let td := match vals.lookup train_number with
            | some td => td
            | none => ⟨[], now, 0⟩
  let updated : List Confirmation × Nat × String :=
    match td.confirmations.find? (fun c => c.user_id == user_id) with
    | some _ => (updateFirstConf user_id now station_name coordinates td.confirmations,
                 td.total_confirmations, "Confirmation updated")
    | none => (td.confirmations ++ [confOf user_id now station_name coordinates],
               td.total_confirmations + 1, "Confirmation added")
  let td2 : TrainValidation := ⟨updated.1, now, updated.2.1⟩
  let vals2 := setA train_number td2 vals
  let metrics := _calculate_crowd_metrics vals2 train_number now
  (vals2, ⟨true, updated.2.2, train_number, user_id, now, metrics⟩)

/-- A train schedule entry of the loaded schedules JSON (the `data` object:
display name plus ordered route stops). -/
structure Schedule where
  train_name : String
  routes : List RouteStop
deriving Repr, DecidableEq

/-- The loaded schedules: train key to schedule. -/
abbrev Schedules := List (String × Schedule)

/-- Embedding of `PositionCalculator._calculate_distance_covered`: sum of
consecutive-pair distances over stops before the current index. The pairwise
haversine distance is abstracted as the function `dist`: the source's
`calculate_distance_between_stations` is a pure function of the loaded
coordinates and no claim depends on its geometry. -/
def _calculate_distance_covered (dist : String → String → ℚ) (routes : List RouteStop)
    (current_idx : Nat) : ℚ :=
  ((List.range current_idx).map (fun i =>
    match routes.get? i, routes.get? (i + 1) with
    | some a, some b => dist a.city b.city
    | _, _ => 0)).sum

/-- Embedding of `PositionCalculator._calculate_distance_to_next`. -/
def _calculate_distance_to_next (dist : String → String → ℚ) (routes : List RouteStop)
    (current_idx : Nat) : ℚ :=
  if current_idx + 1 ≥ routes.length then 0
  else
    match routes.get? current_idx, routes.get? (current_idx + 1) with
    | some a, some b => dist a.city b.city
    | _, _ => 0

/-- Embedding of `PositionCalculator._calculate_eta_to_next`: formatted
"Hh Mm" or "Mm" string from the next stop's arrival time minus now,
"Arrived" when the difference is nonpositive, `none` when there is no next
stop or no parseable arrival time. -/
def _calculate_eta_to_next (routes : List RouteStop) (current_idx : Nat) (now : Nat) :
    Option String :=
  if current_idx + 1 ≥ routes.length then none
  else
    match routes.get? (current_idx + 1) with
    | none => none
    | some nxt =>
      match nxt.arrival_time with
      | none => none
      | some ts =>
        if ts = "" then none
        else
          match _parse_time_string ts with
          | none => none
          | some arr =>
            let diffMin : Int := (arr : Int) - (now : Int)
            if diffMin ≤ 0 then some "Arrived"
            else
              let hours := diffMin / 60
              let minutes := diffMin % 60
              if hours > 0 then some (toString hours ++ "h " ++ toString minutes ++ "m")
              else some (toString minutes ++ "m")

/-- The snapshot dict returned by `calculate_train_position` on success. -/
structure PositionSnapshot where
  current_station_idx : Int
  current_station : String
  next_station : Option String
  progress_percentage : ℚ
  distance_covered : ℚ
  distance_to_next : ℚ
  eta_to_next : Option String
  total_stations : Nat
  current_time : Nat
deriving Repr, DecidableEq

/-- Embedding of `PositionCalculator.calculate_train_position`. On a route
with a single stop the progress expression divides by
`total_stations - 1 = 0`; Python raises ZeroDivisionError("division by
zero") which the handler turns into the error dict, embedded as the error
value here. The unreachable index-out-of-range path is kept with its Python
message for the same reason. -/
def calculate_train_position (schedules : Schedules) (dist : String → String → ℚ)
    (train_number : String) (now : Nat) : Except String PositionSnapshot :=
  match schedules.lookup train_number with
  | none => Except.error "Train schedule not found"
  | some schedule =>
    let routes := schedule.routes
    if routes.isEmpty then Except.error "No routes found in schedule"
    else
      let current_station_idx := _find_current_station_index routes now
      let total_stations := routes.length
      if total_stations - 1 = 0 then Except.error "division by zero"
      else
        match routes.get? current_station_idx.toNat with
        | none => Except.error "list index out of range"
        | some cur =>
          Except.ok
            ⟨current_station_idx, cur.city,
             (match routes.get? (current_station_idx.toNat + 1) with
              | some nxt => some nxt.city
              | none => none),
             pyRound 2 (((current_station_idx : ℚ) / ((total_stations : ℚ) - 1)) * 100),
             pyRound 2 (_calculate_distance_covered dist routes current_station_idx.toNat),
             pyRound 2 (_calculate_distance_to_next dist routes current_station_idx.toNat),
             _calculate_eta_to_next routes current_station_idx.toNat now,
             total_stations, now⟩

/-- Streams of random draws consumed by one generate_train_status call, in
consumption order: simulate_delay environments, weather draws, speed jitter.
Exhausted streams fall back to neutral draws. -/
structure RandEnv where
  sims : List SimEnv
  weathers : List String
  speedJitters : List ℚ
deriving Repr, DecidableEq

/-- Take the next simulate_delay environment from the stream. -/
def popSim (re : RandEnv) : SimEnv × RandEnv :=
  match re.sims with
  | [] => (⟨false, 0, 1, ""⟩, re)
  | e :: rest => (e, ⟨rest, re.weathers, re.speedJitters⟩)

/-- Take the next weather draw from the stream. -/
def popWeather (re : RandEnv) : String × RandEnv :=
  match re.weathers with
  | [] => ("clear", re)
  | w :: rest => (w, ⟨re.sims, rest, re.speedJitters⟩)

/-- Take the next speed jitter from the stream. -/
def popSpeed (re : RandEnv) : ℚ × RandEnv :=
  match re.speedJitters with
  | [] => (1, re)
  | j :: rest => (j, ⟨re.sims, re.weathers, rest⟩)

/-- Result of `TrainTimelineGenerator._simulate_station_delays`. -/
structure StationDelayInfo where
  delay_minutes : Int
  actual_arrival : Option Int
  actual_departure : Option Int
  weather_condition : String
deriving Repr, DecidableEq

/-- Embedding of `TrainTimelineGenerator._simulate_station_delays`: one
weather draw, then one simulate_delay call per present scheduled time
(arrival and departure are simulated separately); the reported per-stop
delay is the max of the two; actual = scheduled + delay only when the delay
is positive. -/
def _simulate_station_delays (hist : HistPatterns) (re : RandEnv) (station_name : String)
    (scheduled_arrival scheduled_departure : Option Nat) (now : Nat) (day : String) :
    StationDelayInfo × HistPatterns × RandEnv :=
  let pw := popWeather re
  let weather := pw.1
  let re1 := pw.2
  let hour := now / 60
  let arrStep : Int × Option Int × HistPatterns × RandEnv :=
    match scheduled_arrival with
    | none => ((0 : Int), (none : Option Int), hist, re1)
    | some sa =>
      let pe := popSim re1
      let rr := simulate_delay hist "STATION_SIMULATION" station_name (sa : Int) hour day
        weather pe.1
      (rr.1.delay_minutes,
       some (if rr.1.delay_minutes > 0 then (sa : Int) + rr.1.delay_minutes else (sa : Int)),
       rr.2, pe.2)
  let arrival_delay := arrStep.1
  let actual_arrival := arrStep.2.1
  let hist1 := arrStep.2.2.1
  let re2 := arrStep.2.2.2
  let depStep : Int × Option Int × HistPatterns × RandEnv :=
    match scheduled_departure with
    | none => ((0 : Int), (none : Option Int), hist1, re2)
    | some sd =>
      let pe := popSim re2
      let rr := simulate_delay hist1 "STATION_SIMULATION" station_name (sd : Int) hour day
        weather pe.1
      (rr.1.delay_minutes,
       some (if rr.1.delay_minutes > 0 then (sd : Int) + rr.1.delay_minutes else (sd : Int)),
       rr.2, pe.2)
  (⟨max arrival_delay depStep.1, actual_arrival, depStep.2.1, weather⟩,
   depStep.2.2.1, depStep.2.2.2)

/-- Embedding of `TrainTimelineGenerator._estimate_crowd_level`. -/
def _estimate_crowd_level (station_name : String) (scheduled_time : Option Nat) : String :=
  match scheduled_time with
  | none => "normal"
  | some t =>
    let hour := t / 60
    let is_major := ["Dhaka", "Chattogram", "Rajshahi", "Khulna", "Sylhet"].any
      (fun m => seqContains m.toList station_name.toList)
    if (7 ≤ hour ∧ hour ≤ 9) ∨ (17 ≤ hour ∧ hour ≤ 19) then
      (if is_major then "high" else "medium")
    else if 22 ≤ hour ∨ hour ≤ 5 then "low"
    else if is_major then "medium" else "normal"

/-- Embedding of `TrainTimelineGenerator._calculate_distance_from_start`:
the same consecutive-pair prefix sum, with an explicit zero at index 0. -/
def _calculate_distance_from_start (dist : String → String → ℚ) (routes : List RouteStop)
    (station_idx : Nat) : ℚ :=
  if station_idx = 0 then 0
  else
    ((List.range station_idx).map (fun i =>
      match routes.get? i, routes.get? (i + 1) with
      | some a, some b => dist a.city b.city
      | _, _ => 0)).sum

/-- One per-station status entry of the timeline. Parsed scheduled times are
minutes-of-day; actual times are minutes. -/
structure StationStatus where
  station_name : String
  status : String
  scheduled_arrival : Option Nat
  scheduled_departure : Option Nat
  actual_arrival : Option Int
  actual_departure : Option Int
  delay_minutes : Int
  halt_duration : String
  duration : String
  distance_from_start : ℚ
  weather_condition : String
  crowd_level : String
deriving Repr, DecidableEq

/-- Loop body of `TrainTimelineGenerator._generate_station_statuses`,
threading the delay history and the random streams through the stops. -/
def genStatusesGo (dist : String → String → ℚ) (routesAll : List RouteStop) (now : Nat)
    (day : String) : List RouteStop → Nat → HistPatterns → RandEnv →
    List StationStatus × HistPatterns × RandEnv
  | [], _, hist, re => ([], hist, re)
  | r :: rest, i, hist, re =>
    let status := _determine_station_status i routesAll now
    let sa := tl_parse_time_string r.arrival_time
    let sd := tl_parse_time_string r.departure_time
    let step := _simulate_station_delays hist re r.city sa sd now day
    let di := step.1
    let dStart := _calculate_distance_from_start dist routesAll i
    let pw := popWeather step.2.2
    let ss : StationStatus :=
      ⟨r.city, status, sa, sd, di.actual_arrival, di.actual_departure, di.delay_minutes,
       r.halt.getD "---", r.duration.getD "---", pyRound 2 dStart, pw.1,
       _estimate_crowd_level r.city sa⟩
    let tail := genStatusesGo dist routesAll now day rest (i + 1) step.2.1 pw.2
    (ss :: tail.1, tail.2.1, tail.2.2)

/-- Embedding of `TrainTimelineGenerator._generate_station_statuses`. -/
def _generate_station_statuses (dist : String → String → ℚ) (routes : List RouteStop)
    (now : Nat) (day : String) (hist : HistPatterns) (re : RandEnv) :
    List StationStatus × HistPatterns × RandEnv :=
  genStatusesGo dist routes now day routes 0 hist re

/-- Embedding of `TrainTimelineGenerator._calculate_total_delay`: Python
`max` over the per-station delays; on an empty list `max([])` raises
ValueError and the handler returns 0. -/
def _calculate_total_delay (station_statuses : List StationStatus) : Int :=
  match station_statuses with
  | [] => 0
  | s :: rest => (rest.map StationStatus.delay_minutes).foldl max s.delay_minutes

/-- Embedding of `PositionCalculator.estimate_train_speed`: 0.0 when the
position computation errors, else base 60 km/h scaled by the peak/off-peak
multiplier and the uniform jitter draw, rounded to one decimal. -/
def estimate_train_speed (schedules : Schedules) (dist : String → String → ℚ)
    (train_number : String) (now : Nat) (jitter : ℚ) : ℚ :=
  match calculate_train_position schedules dist train_number now with
  | Except.error _ => 0
  | Except.ok _ =>
    let hour := now / 60
    let speed_multiplier : ℚ :=
      if (6 ≤ hour ∧ hour ≤ 9) ∨ (17 ≤ hour ∧ hour ≤ 20) then 4/5
      else if 22 ≤ hour ∨ hour ≤ 5 then 6/5
      else 1
    pyRound 1 (60 * speed_multiplier * jitter)

/-- The crowd_validation sub-object the crowd adjustment path attaches. -/
structure CrowdValidationInfo where
  confidence : String
  active_users : Nat
  crowd_level : String
  last_updated : Option Int
deriving Repr, DecidableEq

/-- The status dict assembled by `generate_train_status`. The last three
fields are absent (`none`/`false`) unless the crowd adjustment attaches
them. Fields defaulted from the position snapshot use the source's
`dict.get` fallbacks when the position computation errored. -/
structure TrainStatusData where
  train_number : String
  train_name : String
  station_statuses : List StationStatus
  current_speed : ℚ
  distance_covered : ℚ
  distance_to_next : ℚ
  delay_minutes : Int
  estimated_arrival : Option String
  progress_percentage : ℚ
  current_station : String
  next_station : Option String
  weather_condition : String
  last_updated : Nat
  crowd_validation : Option CrowdValidationInfo := none
  eta_adjusted_by_crowd : Bool := false
  crowd_eta_confidence : Option String := none
deriving Repr, DecidableEq

/-- Embedding of `TrainTimelineGenerator.generate_train_status`, threading
the delay history and random streams; the current datetime is passed as
minutes-of-day plus the strftime day name. -/
def generate_train_status (schedules : Schedules) (dist : String → String → ℚ)
    (hist : HistPatterns) (re : RandEnv) (train_number : String) (now : Nat)
    (day : String) : Except String TrainStatusData × HistPatterns × RandEnv :=
  match schedules.lookup train_number with
  | none => (Except.error "Train schedule not found", hist, re)
  | some schedule =>
    let routes := schedule.routes
    let gss := _generate_station_statuses dist routes now day hist re
    let station_statuses := gss.1
    let position_info := calculate_train_position schedules dist train_number now
    let pj := popSpeed gss.2.2
    let current_speed := estimate_train_speed schedules dist train_number now pj.1
    let pw := popWeather pj.2
    (Except.ok
      ⟨train_number, schedule.train_name, station_statuses, current_speed,
       (match position_info with
        | Except.ok s => s.distance_covered
        | Except.error _ => 0),
       (match position_info with
        | Except.ok s => s.distance_to_next
        | Except.error _ => 0),
       _calculate_total_delay station_statuses,
       (match position_info with
        | Except.ok s => s.eta_to_next
        | Except.error _ => some "Unknown"),
       (match position_info with
        | Except.ok s => s.progress_percentage
        | Except.error _ => 0),
       (match position_info with
        | Except.ok s => s.current_station
        | Except.error _ => "Unknown"),
       (match position_info with
        | Except.ok s => s.next_station
        | Except.error _ => some "Unknown"),
       pw.1, now, none, false, none⟩,
     gss.2.1, pw.2)

/-- Concrete schedule store for the C8 witness. -/
def wSchedules : Schedules :=
  [("T7", ⟨"Demo Express",
    [{ city := "Dhaka", departure_time := some "09:00 am BST" },
     { city := "Tongi", arrival_time := some "10:00 am BST" }]⟩)]

/-- Concrete generate_train_status run for the C8 witness. -/
def wGen : Except String TrainStatusData × HistPatterns × RandEnv :=
  generate_train_status wSchedules (fun _ _ => 1) [] ⟨[], [], []⟩ "T7" 630 "Monday"

/-- Fallback report used only to project the ok value below. -/
def wFallback : TrainStatusData :=
  ⟨"", "", [], 0, 0, 0, 0, none, 0, "", none, "", 0, none, false, none⟩

/-- The report produced by the C8 witness run. -/
def wSD : TrainStatusData :=
  match wGen.1 with
  | Except.ok sd => sd
  | Except.error _ => wFallback

/-- Value type for entries of the crowd-data dict, used to model the exact
key set the adjustment code subscripts. -/
inductive CVal
  | s (v : String)
  | n (v : Nat)
  | oi (v : Option Int)
  | confs (v : List Confirmation)
deriving Repr, DecidableEq

/-- The key/value list of the dict literal returned by
`get_train_crowd_data` (both branches of the source build dicts with exactly
these six keys): train_number, total_confirmations, active_confirmations,
crowd_level, last_updated, confirmations. There is no "confidence" key. -/
def crowd_data_dict (vals : Validations) (train_number : String) (now : Int) :
    List (String × CVal) :=
  let cd := get_train_crowd_data vals train_number now
  [("train_number", CVal.s cd.train_number),
   ("total_confirmations", CVal.n cd.total_confirmations),
   ("active_confirmations", CVal.n cd.active_confirmations),
   ("crowd_level", CVal.s cd.crowd_level),
   ("last_updated", CVal.oi cd.last_updated),
   ("confirmations", CVal.confs cd.confirmations)]

/-- Embedding of `CrowdValidation._calculate_crowd_delay_adjustment`; `draw`
stands for the random.randint outcome of the branch that fires. Note the
source's `elif active_users > 20` arm is shadowed by the `active_users > 10`
arm, so the 2.0 scaling is unreachable. -/
def _calculate_crowd_delay_adjustment (active_users : Nat) (crowd_level : String)
    (draw : Int) : Int :=
  let adjustment : Int :=
    if crowd_level = "low" then 0
    else if crowd_level = "medium" then draw
    else if crowd_level = "high" then draw
    else draw
  if active_users > 10 then pyInt ((adjustment : ℚ) * (3/2))
  else if active_users > 20 then pyInt ((adjustment : ℚ) * 2)
  else adjustment

/-- Embedding of `CrowdValidation.adjust_train_status_with_crowd_data`. The
body subscripts `crowd_data['confidence']`, but the dict returned by
`get_train_crowd_data` has no "confidence" key (see `crowd_data_dict`), so
the subscript raises KeyError; the enclosing broad handler catches it and
the function returns `base_status` unchanged. The branch below the lookup
mirrors the remaining source text but is dead code. -/
def adjust_train_status_with_crowd_data (vals : Validations) (train_number : String)
    (now : Int) (base_status : TrainStatusData) (draw : Int) : TrainStatusData :=
  let crowd_data := crowd_data_dict vals train_number now
  if (crowd_data.lookup "error").isSome then base_status
  else
    match crowd_data.lookup "confidence" with
    | none => base_status
    | some confVal =>
      if confVal = CVal.s "medium" ∨ confVal = CVal.s "high" then
        let cd := get_train_crowd_data vals train_number now
        let adj := _calculate_crowd_delay_adjustment cd.active_confirmations
          cd.crowd_level draw
        let confStr := match confVal with | CVal.s v => v | _ => ""
        let base2 := { base_status with
          delay_minutes := max 0 (base_status.delay_minutes + adj),
          crowd_validation := some ⟨confStr, cd.active_confirmations, cd.crowd_level,
            cd.last_updated⟩ }
        if confVal = CVal.s "high" ∧ 5 < cd.active_confirmations then
          { base2 with eta_adjusted_by_crowd := true, crowd_eta_confidence := some "high" }
        else base2
      else base_status

/-- Concrete store for the C6 failing input: five active confirmations on
train "T9" at time 10000. -/
def cVals : Validations :=
  [("T9", ⟨[confOf "u1" 10000 none none, confOf "u2" 10000 none none,
            confOf "u3" 10000 none none, confOf "u4" 10000 none none,
            confOf "u5" 10000 none none], 10000, 5⟩)]

/-- Concrete base report for the C6 failing input. -/
def cBase : TrainStatusData :=
  ⟨"T9", "Demo", [], 0, 0, 0, 25, none, 0, "Unknown", none, "clear", 0, none, false, none⟩

example : _parse_time_string "10:30 am BST" = some 630 := by decide

example : _parse_time_string "12:05 pm" = some 725 := by decide

example : _parse_time_string "12:15 AM" = some 15 := by decide

example : _parse_time_string "---" = none := by decide

example : _parse_time_string "" = none := by decide

example : _parse_time_string "9:05 PM BST" = some 1265 := by decide

theorem tl_parse_agrees (ts : String) :
    tl_parse_time_string (some ts) = _parse_time_string ts := by
  by_cases h1 : ts = ""
  · subst h1; rfl
  · by_cases h2 : ts = "---"
    · subst h2; rfl
    · simp [tl_parse_time_string, h1, h2]

theorem pcScanGo_step (now len i : Nat) (r : RouteStop) (rest : List RouteStop) :
    pcScanGo now len i (r :: rest) =
      (if hasFutureDep now r then max 0 ((i : Int) - 1)
       else pcScanGo now len (i + 1) rest) := by
  obtain ⟨city, arr, dep, halt, dur⟩ := r
  cases dep with
  | none => simp [pcScanGo, hasFutureDep]
  | some ts =>
    by_cases hts : ts = ""
    · subst hts; simp [pcScanGo, hasFutureDep]
    · simp only [pcScanGo, hasFutureDep]
      rcases Option.eq_none_or_eq_some (_parse_time_string ts) with hp | ⟨dt, hp⟩
      · simp [hp, hts]
      · simp only [hp]
        by_cases hlt : now < dt
        · simp [hts, hlt]
        · simp [hts, hlt]

theorem tlScanGo_step (now len i : Nat) (r : RouteStop) (rest : List RouteStop) :
    tlScanGo now len i (r :: rest) =
      (if hasFutureDep now r then max 0 ((i : Int) - 1)
       else tlScanGo now len (i + 1) rest) := by
  obtain ⟨city, arr, dep, halt, dur⟩ := r
  cases dep with
  | none => simp [tlScanGo, hasFutureDep]
  | some ts =>
    by_cases hts : ts = ""
    · subst hts; simp [tlScanGo, hasFutureDep]
    · simp only [tlScanGo, hasFutureDep, tl_parse_agrees]
      rcases Option.eq_none_or_eq_some (_parse_time_string ts) with hp | ⟨dt, hp⟩
      · simp [hp, hts]
      · simp only [hp]
        by_cases hlt : now < dt
        · simp [hts, hlt]
        · simp [hts, hlt]

theorem pcScanGo_spec (now len : Nat) :
    ∀ (l : List RouteStop) (i : Nat),
      pcScanGo now len i l =
        (match firstFutureIdx now l with
         | some k => max 0 ((i + k : Int) - 1)
         | none => (len : Int) - 1) := by
  intro l
  induction l with
  | nil => intro i; rfl
  | cons r rest ih =>
    intro i
    rw [pcScanGo_step]
    by_cases hf : hasFutureDep now r
    · simp [firstFutureIdx, hf]
    · simp only [firstFutureIdx, hf, if_false, Bool.false_eq_true]
      rw [ih (i + 1)]
      cases hffi : firstFutureIdx now rest with
      | none => simp
      | some k =>
        simp only [Option.map_some']
        congr 1
        push_cast
        ring

theorem scan_agree_aux (now len : Nat) :
    ∀ (l : List RouteStop) (i : Nat), tlScanGo now len i l = pcScanGo now len i l := by
  intro l
  induction l with
  | nil => intro i; rfl
  | cons r rest ih =>
    intro i
    rw [pcScanGo_step, tlScanGo_step]
    by_cases hf : hasFutureDep now r
    · simp [hf]
    · simp [hf, ih (i + 1)]

theorem firstFutureIdx_of_none (now : Nat) :
    ∀ (l : List RouteStop), (∀ r ∈ l, hasFutureDep now r = false) →
      firstFutureIdx now l = none := by
  intro l
  induction l with
  | nil => intro _; rfl
  | cons r rest ih =>
    intro h
    have hr : hasFutureDep now r = false := h r (List.mem_cons_self r rest)
    simp only [firstFutureIdx, hr, Bool.false_eq_true, if_false]
    rw [ih (fun x hx => h x (List.mem_cons_of_mem r hx))]
    rfl

theorem firstFutureIdx_of_first (now : Nat) :
    ∀ (l : List RouteStop) (i : Nat) (h : i < l.length),
      hasFutureDep now (l.get ⟨i, h⟩) = true →
      (∀ j (hj : j < i), hasFutureDep now (l.get ⟨j, Nat.lt_trans hj h⟩) = false) →
      firstFutureIdx now l = some i := by
  intro l
  induction l with
  | nil => intro i h; exact absurd h (Nat.not_lt_zero i)
  | cons r rest ih =>
    intro i h hi hleast
    cases i with
    | zero =>
      simp only [List.get] at hi
      simp [firstFutureIdx, hi]
    | succ i2 =>
      have hr : hasFutureDep now r = false := by
        have := hleast 0 (Nat.succ_pos i2)
        simpa using this
      simp only [firstFutureIdx, hr, Bool.false_eq_true, if_false]
      rw [ih i2 (Nat.lt_of_succ_lt_succ h) (by simpa using hi)
        (fun j hj => by
          have := hleast (j + 1) (Nat.succ_lt_succ hj)
          simpa using this)]
      rfl

/-- C1: the current-stop scan returns `max 0 (i-1)` for the least index `i`
whose (present, parseable) departure time is strictly after `now`; when no
stop has a parsed departure strictly after `now` (all in the past, missing,
or unparseable) it returns `len(route) - 1`; and when the first stop's
departure is in the future it returns 0. -/
theorem current_stop_index_scan_rule (routes : List RouteStop) (now : Nat) :
    (∀ (i : Nat) (h : i < routes.length),
       hasFutureDep now (routes.get ⟨i, h⟩) = true →
       (∀ j (hj : j < i), hasFutureDep now (routes.get ⟨j, Nat.lt_trans hj h⟩) = false) →
       _find_current_station_index routes now = max 0 ((i : Int) - 1))
  ∧ ((∀ r ∈ routes, hasFutureDep now r = false) →
       _find_current_station_index routes now = (routes.length : Int) - 1)
  ∧ (∀ r rest, routes = r :: rest → hasFutureDep now r = true →
       _find_current_station_index routes now = 0) := by
  refine ⟨?_, ?_, ?_⟩
  · intro i h hi hleast
    unfold _find_current_station_index
    rw [pcScanGo_spec, firstFutureIdx_of_first now routes i h hi hleast]
    simp
  · intro hall
    unfold _find_current_station_index
    rw [pcScanGo_spec, firstFutureIdx_of_none now routes hall]
  · intro r rest hroutes hr
    subst hroutes
    unfold _find_current_station_index
    rw [pcScanGo_spec]
    simp [firstFutureIdx, hr]

/-- C1 witness: on a two-stop route whose departures (08:00 am, 09:00 am) are
both before now = 10:30 am the scan returns the last index 1; on the
three-stop example route at now = 05:00 am (first departure 09:00 am is in
the future) it returns 0. -/
theorem current_stop_index_scan_rule_witness :
    _find_current_station_index
        [{ city := "A", departure_time := some "08:00 am" },
         { city := "B", departure_time := some "09:00 am" }] 630 = 1
  ∧ _find_current_station_index
        [{ city := "StationA", departure_time := some "09:00 am BST" },
         { city := "StationB", arrival_time := some "10:00 am BST",
           departure_time := some "10:05 am BST" },
         { city := "StationC", arrival_time := some "11:00 am BST" }] 300 = 0 := by
  constructor
  · exact (current_stop_index_scan_rule
      [{ city := "A", departure_time := some "08:00 am" },
       { city := "B", departure_time := some "09:00 am" }] 630).2.1 (by decide)
  · exact (current_stop_index_scan_rule
      [{ city := "StationA", departure_time := some "09:00 am BST" },
       { city := "StationB", arrival_time := some "10:00 am BST",
         departure_time := some "10:05 am BST" },
       { city := "StationC", arrival_time := some "11:00 am BST" }] 300).2.2
      { city := "StationA", departure_time := some "09:00 am BST" }
      [{ city := "StationB", arrival_time := some "10:00 am BST",
         departure_time := some "10:05 am BST" },
       { city := "StationC", arrival_time := some "11:00 am BST" }] rfl (by decide)

/-- C7: the two independently implemented scans compute the same stop index
for every route and every current time. -/
theorem scans_agree (routes : List RouteStop) (now : Nat) :
    _find_current_station_index routes now = _find_current_position routes now := by
  unfold _find_current_station_index _find_current_position
  exact (scan_agree_aux now routes.length routes 0).symm

/-- C2 counterexample: on the example route at now = 10:30 am the tags are
not [completed, current, next]. StationC has no departure time, so the scan
finds no stop with a departure after 10:30 and returns the last index 2, not
1; the actual tags are [completed, completed, current]. -/
theorem station_status_example_refuted :
    [_determine_station_status 0 exampleRoute 630,
     _determine_station_status 1 exampleRoute 630,
     _determine_station_status 2 exampleRoute 630] ≠ ["completed", "current", "next"] := by
  decide

/-- C2 (amended): the status tag assigned to index `i` is "completed" when
`i < current_position`, "current" when equal, "next" when
`i = current_position + 1` and "upcoming" otherwise, where current_position
is the timeline module's time-of-day scan; on the three-stop example route
with now = 10:30 am the scan returns 2 and the tags are exactly
[completed, completed, current]. -/
theorem station_status_rule (routes : List RouteStop) (now : Nat) (i : Nat) (pos : Int)
    (hpos : _find_current_position routes now = pos) :
    ((i : Int) < pos → _determine_station_status i routes now = "completed")
  ∧ ((i : Int) = pos → _determine_station_status i routes now = "current")
  ∧ ((i : Int) = pos + 1 → _determine_station_status i routes now = "next")
  ∧ (¬ (i : Int) < pos → (i : Int) ≠ pos → (i : Int) ≠ pos + 1 →
       _determine_station_status i routes now = "upcoming")
  ∧ (_find_current_position exampleRoute 630 = 2
  ∧ [_determine_station_status 0 exampleRoute 630,
     _determine_station_status 1 exampleRoute 630,
     _determine_station_status 2 exampleRoute 630] = ["completed", "completed", "current"]) := by
  refine ⟨?_, ?_, ?_, ?_, by decide, by decide⟩
  · intro h
    simp only [_determine_station_status, hpos, h, if_true]
  · intro h
    simp only [_determine_station_status, hpos]
    rw [if_neg (by omega), if_pos h]
  · intro h
    simp only [_determine_station_status, hpos]
    rw [if_neg (by omega), if_neg (by omega), if_pos h]
  · intro h1 h2 h3
    simp only [_determine_station_status, hpos]
    rw [if_neg h1, if_neg h2, if_neg h3]

/-- C2 witness: the amended rule applied on the example route at index 0 with
the concretely computed position 2 yields the tag "completed". -/
theorem station_status_rule_witness :
    _determine_station_status 0 exampleRoute 630 = "completed" :=
  (station_status_rule exampleRoute 630 0 2 (by decide)).1 (by decide)

unseal Rat.mul Rat.add Rat.inv Rat.sub in
example : _get_station_factor "Dhaka Cantonment" = 3/2 := by decide

unseal Rat.mul Rat.add Rat.inv Rat.sub in
example : _get_station_factor "Comilla" = 1 := by decide

/-- C3: for every call — any history state, train, station, scheduled time,
current time and weather label, and any random draws — simulate_delay returns
delay_minutes in [0, 120], actual_time equal to scheduled_time plus
delay_minutes, and reports the weather label together with the four
multiplier factors used. -/
theorem simulate_delay_contract (hist : HistPatterns) (train_number current_station : String)
    (scheduled_time : Int) (current_hour : Nat) (current_day : String)
    (weather_condition : String) (env : SimEnv) (r : DelayResult) (hist2 : HistPatterns)
    (h : simulate_delay hist train_number current_station scheduled_time current_hour
          current_day weather_condition env = (r, hist2)) :
    0 ≤ r.delay_minutes ∧ r.delay_minutes ≤ 120
  ∧ r.actual_time = r.scheduled_time + r.delay_minutes
  ∧ r.scheduled_time = scheduled_time
  ∧ r.weather_condition = weather_condition
  ∧ r.factors_applied = ⟨lookupD weather_factors weather_condition 1,
      _get_time_factor current_hour, _get_day_factor current_day,
      _get_station_factor current_station⟩ := by
  have hr : r = (simulate_delay hist train_number current_station scheduled_time
      current_hour current_day weather_condition env).1 := by rw [h]
  subst hr
  unfold simulate_delay
  exact ⟨le_max_left 0 _, max_le (by norm_num) (min_le_right _ 120), rfl, rfl, rfl, rfl⟩

/-- C3 witness: the contract instantiated on a concrete call. -/
theorem simulate_delay_contract_witness :
    0 ≤ (simulate_delay [] "701" "Dhaka" 540 9 "Monday" "rainy"
          ⟨true, 10, 1, "t0"⟩).1.delay_minutes
  ∧ (simulate_delay [] "701" "Dhaka" 540 9 "Monday" "rainy"
          ⟨true, 10, 1, "t0"⟩).1.delay_minutes ≤ 120
  ∧ (simulate_delay [] "701" "Dhaka" 540 9 "Monday" "rainy" ⟨true, 10, 1, "t0"⟩).1.actual_time
      = (simulate_delay [] "701" "Dhaka" 540 9 "Monday" "rainy"
          ⟨true, 10, 1, "t0"⟩).1.scheduled_time
        + (simulate_delay [] "701" "Dhaka" 540 9 "Monday" "rainy"
          ⟨true, 10, 1, "t0"⟩).1.delay_minutes
  ∧ (simulate_delay [] "701" "Dhaka" 540 9 "Monday" "rainy"
          ⟨true, 10, 1, "t0"⟩).1.scheduled_time = 540
  ∧ (simulate_delay [] "701" "Dhaka" 540 9 "Monday" "rainy"
          ⟨true, 10, 1, "t0"⟩).1.weather_condition = "rainy"
  ∧ (simulate_delay [] "701" "Dhaka" 540 9 "Monday" "rainy"
          ⟨true, 10, 1, "t0"⟩).1.factors_applied
      = ⟨lookupD weather_factors "rainy" 1, _get_time_factor 9, _get_day_factor "Monday",
         _get_station_factor "Dhaka"⟩ :=
  simulate_delay_contract [] "701" "Dhaka" 540 9 "Monday" "rainy" ⟨true, 10, 1, "t0"⟩
    (simulate_delay [] "701" "Dhaka" 540 9 "Monday" "rainy" ⟨true, 10, 1, "t0"⟩).1
    (simulate_delay [] "701" "Dhaka" 540 9 "Monday" "rainy" ⟨true, 10, 1, "t0"⟩).2 rfl

theorem lookup_setA_self {α : Type} (k : String) (v : α) :
    ∀ l : List (String × α), (setA k v l).lookup k = some v := by
  intro l
  induction l with
  | nil => simp [setA, List.lookup]
  | cons p rest ih =>
    obtain ⟨k2, v2⟩ := p
    by_cases h : k2 = k
    · subst h; simp [setA, List.lookup]
    · have hkk : (k == k2) = false := beq_eq_false_iff_ne.mpr (Ne.symm h)
      simp [setA, h, List.lookup, hkk, ih]

theorem lookup_setA_other {α : Type} (k k2 : String) (v : α) (hne : k2 ≠ k) :
    ∀ l : List (String × α), (setA k v l).lookup k2 = l.lookup k2 := by
  intro l
  induction l with
  | nil => simp [setA, List.lookup, beq_eq_false_iff_ne.mpr hne]
  | cons p rest ih =>
    obtain ⟨k3, v3⟩ := p
    by_cases h : k3 = k
    · subst h
      simp [setA, List.lookup, beq_eq_false_iff_ne.mpr hne]
    · simp only [setA, h, if_false]
      by_cases h2 : k2 = k3
      · subst h2; simp [List.lookup]
      · simp [List.lookup, beq_eq_false_iff_ne.mpr h2, ih]

theorem simulate_delay_snd (hist : HistPatterns) (tn cs : String) (st : Int) (ch : Nat)
    (cd wc : String) (env : SimEnv) :
    (simulate_delay hist tn cs st ch cd wc env).2 =
      _update_historical_patterns hist tn cs
        (simulate_delay hist tn cs st ch cd wc env).1.delay_minutes env.nowISO := rfl

theorem bucketOf_update_self (hist : HistPatterns) (t s : String) (d : Int) (ts : String) :
    bucketOf (_update_historical_patterns hist t s d ts) t s =
      (if (bucketOf hist t s ++ [obsOf d ts]).length > 100
       then (bucketOf hist t s ++ [obsOf d ts]).drop 1
       else bucketOf hist t s ++ [obsOf d ts]) := by
  unfold _update_historical_patterns bucketOf
  rw [lookup_setA_self]
  simp only [Option.getD_some]
  rw [lookup_setA_self]
  rfl

theorem bucketOf_update_other (hist : HistPatterns) (t s t2 s2 : String) (d : Int)
    (ts : String) (h : ¬(t2 = t ∧ s2 = s)) :
    bucketOf (_update_historical_patterns hist t s d ts) t2 s2 = bucketOf hist t2 s2 := by
  unfold _update_historical_patterns bucketOf
  by_cases ht : t2 = t
  · subst ht
    have hs : s2 ≠ s := fun hs => h ⟨rfl, hs⟩
    rw [lookup_setA_self]
    simp only [Option.getD_some]
    rw [lookup_setA_other s s2 _ hs]
  · rw [lookup_setA_other t t2 _ ht]

theorem bucket_le_of_reachable (hist : HistPatterns) (hr : ReachableHist hist) :
    ∀ t s, (bucketOf hist t s).length ≤ 100 := by
  induction hr with
  | init => intro t s; simp [bucketOf, List.lookup]
  | step h0 tn cs st ch cd wc env hprev ih =>
    intro t s
    rw [simulate_delay_snd]
    by_cases hts : t = tn ∧ s = cs
    · obtain ⟨rfl, rfl⟩ := hts
      rw [bucketOf_update_self]
      have hlen := ih t s
      split
      · rename_i hgt
        simp only [List.length_drop, List.length_append, List.length_cons,
          List.length_nil] at hgt ⊢
        omega
      · rename_i hle
        simp only [gt_iff_lt, not_lt, List.length_append, List.length_cons,
          List.length_nil] at hle ⊢
        omega
    · rw [bucketOf_update_other h0 tn cs t s _ env.nowISO hts]
      exact ih t s

theorem bucket_step_full (hist : HistPatterns) (tn cs : String) (st : Int) (ch : Nat)
    (cd wc : String) (env : SimEnv)
    (hfull : (bucketOf hist tn cs).length = 100) :
    bucketOf (simulate_delay hist tn cs st ch cd wc env).2 tn cs
      = (bucketOf hist tn cs).drop 1
          ++ [obsOf (simulate_delay hist tn cs st ch cd wc env).1.delay_minutes env.nowISO] := by
  rw [simulate_delay_snd, bucketOf_update_self]
  rw [if_pos (by simp [hfull])]
  cases hb : bucketOf hist tn cs with
  | nil => rw [hb] at hfull; simp at hfull
  | cons y ys => simp

theorem bucket_step_append (hist : HistPatterns) (tn cs : String) (st : Int) (ch : Nat)
    (cd wc : String) (env : SimEnv)
    (hroom : (bucketOf hist tn cs).length < 100) :
    bucketOf (simulate_delay hist tn cs st ch cd wc env).2 tn cs
      = bucketOf hist tn cs
          ++ [obsOf (simulate_delay hist tn cs st ch cd wc env).1.delay_minutes env.nowISO] := by
  rw [simulate_delay_snd, bucketOf_update_self]
  rw [if_neg (by simp; omega)]

/-- C4: in every history state reachable by any sequence of simulate_delay
calls, every (train, station) bucket holds at most 100 observations; a call
on a full bucket (the 101st append) evicts the oldest observation first,
preserving the FIFO order of the rest, and a call on a non-full bucket
appends without eviction. -/
theorem history_bucket_fifo (hist : HistPatterns) (hr : ReachableHist hist) :
    (∀ train_number station, (bucketOf hist train_number station).length ≤ 100)
  ∧ (∀ (train_number station : String) (scheduled_time : Int) (current_hour : Nat)
       (current_day weather_condition : String) (env : SimEnv),
       (bucketOf hist train_number station).length = 100 →
       bucketOf (simulate_delay hist train_number station scheduled_time current_hour
           current_day weather_condition env).2 train_number station
         = (bucketOf hist train_number station).drop 1
             ++ [obsOf (simulate_delay hist train_number station scheduled_time
                    current_hour current_day weather_condition env).1.delay_minutes
                  env.nowISO])
  ∧ (∀ (train_number station : String) (scheduled_time : Int) (current_hour : Nat)
       (current_day weather_condition : String) (env : SimEnv),
       (bucketOf hist train_number station).length < 100 →
       bucketOf (simulate_delay hist train_number station scheduled_time current_hour
           current_day weather_condition env).2 train_number station
         = bucketOf hist train_number station
             ++ [obsOf (simulate_delay hist train_number station scheduled_time
                    current_hour current_day weather_condition env).1.delay_minutes
                  env.nowISO]) :=
  ⟨bucket_le_of_reachable hist hr,
   fun tn s st ch cd wc env hfull => bucket_step_full hist tn s st ch cd wc env hfull,
   fun tn s st ch cd wc env hroom => bucket_step_append hist tn s st ch cd wc env hroom⟩

unseal Rat.mul Rat.add Rat.inv Rat.sub in
/-- C4 witness: after one concrete simulate_delay call from the empty store
the ("T", "S") bucket respects the 100 bound, and a second concrete call
appends to the non-full bucket. -/
theorem history_bucket_fifo_witness :
    (bucketOf (simulate_delay [] "T" "S" 0 9 "Monday" "clear"
        ⟨false, 0, 1, "t1"⟩).2 "T" "S").length ≤ 100
  ∧ bucketOf (simulate_delay (simulate_delay [] "T" "S" 0 9 "Monday" "clear"
          ⟨false, 0, 1, "t1"⟩).2 "T" "S" 0 9 "Monday" "clear" ⟨false, 0, 1, "t2"⟩).2 "T" "S"
      = bucketOf (simulate_delay [] "T" "S" 0 9 "Monday" "clear"
          ⟨false, 0, 1, "t1"⟩).2 "T" "S"
        ++ [obsOf (simulate_delay (simulate_delay [] "T" "S" 0 9 "Monday" "clear"
                ⟨false, 0, 1, "t1"⟩).2 "T" "S" 0 9 "Monday" "clear"
                ⟨false, 0, 1, "t2"⟩).1.delay_minutes "t2"] :=
  ⟨(history_bucket_fifo _ (ReachableHist.step [] "T" "S" 0 9 "Monday" "clear"
      ⟨false, 0, 1, "t1"⟩ ReachableHist.init)).1 "T" "S",
   (history_bucket_fifo _ (ReachableHist.step [] "T" "S" 0 9 "Monday" "clear"
      ⟨false, 0, 1, "t1"⟩ ReachableHist.init)).2.2 "T" "S" 0 9 "Monday" "clear"
      ⟨false, 0, 1, "t2"⟩ (by decide)⟩

/-- C5 counterexample: with an empty history store — zero recorded
observations for train "701" at station "Dhaka" — predict_delay_probability
returns the statistics error dict, not the fixed fallback
{delay_probability: 0.3, confidence: "low"}. -/
theorem predict_zero_history_refuted :
    bucketOf [] "701" "Dhaka" = []
  ∧ predict_delay_probability [] "701" "Dhaka" 9 "Monday"
      = PredictResult.err "No historical data available"
  ∧ predict_delay_probability [] "701" "Dhaka" 9 "Monday"
      ≠ PredictResult.fallback (3/10) "low" :=
  ⟨rfl, rfl, by decide⟩

/-- C5 (amended): with zero recorded observations for the (train, station)
pair, predict_delay_probability returns one of the statistics error dicts
("No historical data available" when the train has no history at all, "No
data for this station" when the station bucket is absent, "No delay data
available" when the bucket is empty) — and the fixed fallback
{delay_probability: 0.3, confidence: "low"} is never returned for any input:
its branch is unreachable because the statistics call already errors on
empty data. -/
theorem predict_zero_history (hist : HistPatterns) (train_number station : String)
    (sched_hour : Nat) (sched_day : String) :
    (bucketOf hist train_number station = [] →
       predict_delay_probability hist train_number station sched_hour sched_day
           = PredictResult.err "No historical data available"
     ∨ predict_delay_probability hist train_number station sched_hour sched_day
           = PredictResult.err "No data for this station"
     ∨ predict_delay_probability hist train_number station sched_hour sched_day
           = PredictResult.err "No delay data available")
  ∧ (∀ p c, predict_delay_probability hist train_number station sched_hour sched_day
        ≠ PredictResult.fallback p c) := by
  constructor
  · intro hz
    unfold predict_delay_probability get_historical_delay_stats
    cases hl : hist.lookup train_number with
    | none => exact Or.inl rfl
    | some trainHist =>
      simp only [statsDelays]
      cases hl2 : trainHist.lookup station with
      | none => exact Or.inr (Or.inl rfl)
      | some ds =>
        have hds : ds = [] := by
          unfold bucketOf at hz
          rw [hl] at hz
          simp only [Option.getD_some] at hz
          rw [hl2] at hz
          simpa using hz
        subst hds
        exact Or.inr (Or.inr rfl)
  · intro p c
    unfold predict_delay_probability get_historical_delay_stats
    cases hl : hist.lookup train_number with
    | none => simp
    | some trainHist =>
      simp only [statsDelays]
      cases hl2 : trainHist.lookup station with
      | none => simp
      | some ds =>
        cases ds with
        | nil => simp
        | cons d rest => simp

/-- C5 witness: the amended statement instantiated on the empty store. -/
theorem predict_zero_history_witness :
    (predict_delay_probability [] "701" "Dhaka" 9 "Monday"
        = PredictResult.err "No historical data available"
     ∨ predict_delay_probability [] "701" "Dhaka" 9 "Monday"
        = PredictResult.err "No data for this station"
     ∨ predict_delay_probability [] "701" "Dhaka" 9 "Monday"
        = PredictResult.err "No delay data available")
  ∧ predict_delay_probability [] "701" "Dhaka" 9 "Monday"
        ≠ PredictResult.fallback (3/10) "low" :=
  ⟨(predict_zero_history [] "701" "Dhaka" 9 "Monday").1 rfl,
   (predict_zero_history [] "701" "Dhaka" 9 "Monday").2 (3/10) "low"⟩

theorem updateFirstConf_map_id (uid : String) (ts : Int) (st : Option String)
    (co : Option (ℚ × ℚ)) : ∀ l : List Confirmation,
    (updateFirstConf uid ts st co l).map Confirmation.user_id
      = l.map Confirmation.user_id := by
  intro l
  induction l with
  | nil => rfl
  | cons c rest ih =>
    by_cases h : c.user_id = uid
    · simp [updateFirstConf, h]
    · simp [updateFirstConf, h, ih]

theorem updateFirstConf_length (uid : String) (ts : Int) (st : Option String)
    (co : Option (ℚ × ℚ)) (l : List Confirmation) :
    (updateFirstConf uid ts st co l).length = l.length := by
  have h := updateFirstConf_map_id uid ts st co l
  have h1 := congrArg List.length h
  simpa using h1

theorem updateFirstConf_mem (uid : String) (ts : Int) (st : Option String)
    (co : Option (ℚ × ℚ)) : ∀ l : List Confirmation, (∃ c ∈ l, c.user_id = uid) →
    ∃ c2 ∈ updateFirstConf uid ts st co l, c2.user_id = uid ∧ c2.timestamp = ts
      ∧ c2.station_name = st ∧ c2.coordinates = co := by
  intro l
  induction l with
  | nil =>
    rintro ⟨c, hc, hcu⟩
    cases hc
  | cons c rest ih =>
    intro hex
    by_cases h : c.user_id = uid
    · refine ⟨{ c with timestamp := ts, station_name := st, coordinates := co }, ?_, h, rfl, rfl, rfl⟩
      simp [updateFirstConf, h]
    · obtain ⟨c0, hc0, hcu⟩ := hex
      rcases List.mem_cons.mp hc0 with rfl | hmem
      · exact absurd hcu h
      · obtain ⟨c2, hc2, hprops⟩ := ih ⟨c0, hmem, hcu⟩
        refine ⟨c2, ?_, hprops⟩
        simp only [updateFirstConf, h, if_false]
        exact List.mem_cons_of_mem c hc2

theorem mem_setA {α : Type} (k : String) (v : α) :
    ∀ (l : List (String × α)) (p : String × α), p ∈ setA k v l → p ∈ l ∨ p = (k, v) := by
  intro l
  induction l with
  | nil =>
    intro p hp
    simp [setA] at hp
    exact Or.inr hp
  | cons q rest ih =>
    intro p hp
    obtain ⟨k2, v2⟩ := q
    by_cases h : k2 = k
    · subst h
      simp only [setA, if_pos rfl] at hp
      rcases List.mem_cons.mp hp with rfl | hmem
      · exact Or.inr rfl
      · exact Or.inl (List.mem_cons_of_mem _ hmem)
    · simp only [setA, h, if_false] at hp
      rcases List.mem_cons.mp hp with rfl | hmem
      · exact Or.inl (List.mem_cons_self _ _)
      · rcases ih p hmem with h1 | h2
        · exact Or.inl (List.mem_cons_of_mem _ h1)
        · exact Or.inr h2

theorem mem_of_lookup {α : Type} (k : String) (v : α) :
    ∀ l : List (String × α), l.lookup k = some v → (k, v) ∈ l := by
  intro l
  induction l with
  | nil => intro h; cases h
  | cons p rest ih =>
    obtain ⟨k2, v2⟩ := p
    intro h
    by_cases hk : k = k2
    · subst hk
      simp only [List.lookup, beq_self_eq_true] at h
      cases h
      exact List.mem_cons_self _ _
    · simp only [List.lookup, beq_eq_false_iff_ne.mpr hk] at h
      exact List.mem_cons_of_mem _ (ih h)

/-- C9: confirm_user_on_train preserves at most one confirmation per user:
from any state whose buckets have pairwise distinct user ids, every bucket
still has distinct user ids afterwards; a repeat confirmation by the same
(train, user_id) rewrites the matching entry in place — same list length,
same total_confirmations, timestamp/station/coordinates updated — while a
first-time confirmation appends exactly one entry and increments
total_confirmations by one (also from the implicit empty record of an unseen
train). -/
theorem confirm_user_unique (vals : Validations) (train_number user_id : String)
    (station_name : Option String) (coordinates : Option (ℚ × ℚ)) (now : Int)
    (hinv : ∀ p ∈ vals, ((Prod.snd p).confirmations.map Confirmation.user_id).Nodup) :
    (∀ p ∈ (confirm_user_on_train vals train_number user_id station_name coordinates now).1,
        ((Prod.snd p).confirmations.map Confirmation.user_id).Nodup)
  ∧ (∀ td0, vals.lookup train_number = some td0 →
      (∃ c ∈ td0.confirmations, c.user_id = user_id) →
      ∃ td2, ((confirm_user_on_train vals train_number user_id station_name coordinates
                now).1).lookup train_number = some td2
        ∧ td2.confirmations.length = td0.confirmations.length
        ∧ td2.total_confirmations = td0.total_confirmations
        ∧ ∃ c2 ∈ td2.confirmations, c2.user_id = user_id ∧ c2.timestamp = now
            ∧ c2.station_name = station_name ∧ c2.coordinates = coordinates)
  ∧ (∀ td0, vals.lookup train_number = some td0 →
      (∀ c ∈ td0.confirmations, c.user_id ≠ user_id) →
      ∃ td2, ((confirm_user_on_train vals train_number user_id station_name coordinates
                now).1).lookup train_number = some td2
        ∧ td2.confirmations
            = td0.confirmations ++ [confOf user_id now station_name coordinates]
        ∧ td2.total_confirmations = td0.total_confirmations + 1)
  ∧ (vals.lookup train_number = none →
      ∃ td2, ((confirm_user_on_train vals train_number user_id station_name coordinates
                now).1).lookup train_number = some td2
        ∧ td2.confirmations = [confOf user_id now station_name coordinates]
        ∧ td2.total_confirmations = 1) := by
  refine ⟨?_, ?_, ?_, ?_⟩
  · intro p hp
    have hshape : ∃ td2 : TrainValidation,
        (confirm_user_on_train vals train_number user_id station_name coordinates now).1
          = setA train_number td2 vals
        ∧ (td2.confirmations.map Confirmation.user_id).Nodup := by
      cases hl0 : vals.lookup train_number with
      | none =>
        refine ⟨⟨[confOf user_id now station_name coordinates], now, 1⟩, ?_, by simp [confOf]⟩
        simp [confirm_user_on_train, hl0]
      | some td0 =>
        cases hf : td0.confirmations.find? (fun c => c.user_id == user_id) with
        | some c0 =>
          refine ⟨⟨updateFirstConf user_id now station_name coordinates td0.confirmations,
                   now, td0.total_confirmations⟩, ?_, ?_⟩
          · simp [confirm_user_on_train, hl0, hf]
          · rw [updateFirstConf_map_id]
            exact hinv (train_number, td0) (mem_of_lookup train_number td0 vals hl0)
        | none =>
          refine ⟨⟨td0.confirmations ++ [confOf user_id now station_name coordinates],
                   now, td0.total_confirmations + 1⟩, ?_, ?_⟩
          · simp [confirm_user_on_train, hl0, hf]
          · have hnd := hinv (train_number, td0) (mem_of_lookup train_number td0 vals hl0)
            have hnotin : user_id ∉ td0.confirmations.map Confirmation.user_id := by
              intro hmem
              obtain ⟨c, hc, hcu⟩ := List.mem_map.mp hmem
              have := List.find?_eq_none.mp hf c hc
              simp [hcu] at this
            simp only [List.map_append, List.map_cons, List.map_nil, confOf]
            simp [List.nodup_append, hnd, hnotin]
    obtain ⟨td2, heq, hnd⟩ := hshape
    rw [heq] at hp
    rcases mem_setA train_number td2 vals p hp with hmem | heqp
    · exact hinv p hmem
    · rw [heqp]
      exact hnd
  · intro td0 hl0 hex
    have hfind : ∃ c0, td0.confirmations.find? (fun c => c.user_id == user_id) = some c0 := by
      cases hf : td0.confirmations.find? (fun c => c.user_id == user_id) with
      | some c0 => exact ⟨c0, rfl⟩
      | none =>
        obtain ⟨c, hc, hcu⟩ := hex
        have := List.find?_eq_none.mp hf c hc
        simp [hcu] at this
    obtain ⟨c0, hf⟩ := hfind
    refine ⟨⟨updateFirstConf user_id now station_name coordinates td0.confirmations, now,
             td0.total_confirmations⟩, ?_, ?_, rfl, ?_⟩
    · simp only [confirm_user_on_train, hl0, hf]
      exact lookup_setA_self train_number _ vals
    · exact updateFirstConf_length user_id now station_name coordinates td0.confirmations
    · exact updateFirstConf_mem user_id now station_name coordinates td0.confirmations hex
  · intro td0 hl0 hall
    have hf : td0.confirmations.find? (fun c => c.user_id == user_id) = none :=
      List.find?_eq_none.mpr (fun c hc => by simp [hall c hc])
    refine ⟨⟨td0.confirmations ++ [confOf user_id now station_name coordinates], now,
             td0.total_confirmations + 1⟩, ?_, rfl, rfl⟩
    simp only [confirm_user_on_train, hl0, hf]
    exact lookup_setA_self train_number _ vals
  · intro hl0
    refine ⟨⟨[confOf user_id now station_name coordinates], now, 1⟩, ?_, rfl, rfl⟩
    simp only [confirm_user_on_train, hl0, List.find?, List.nil_append, Nat.zero_add]
    exact lookup_setA_self train_number _ vals

/-- C9 witness: a repeat confirmation by user "u1" on a concrete one-entry
store leaves the bucket with distinct user ids (applied to the train entry of
the updated store). -/
theorem confirm_user_unique_witness :
    (((("T1", (⟨[confOf "u1" 2000 none none], 2000, 1⟩ : TrainValidation)) :
        String × TrainValidation)).2.confirmations.map Confirmation.user_id).Nodup :=
  (confirm_user_unique [("T1", ⟨[confOf "u1" 1000 none none], 1000, 1⟩)] "T1" "u1"
      none none 2000 (by decide)).1
    ("T1", ⟨[confOf "u1" 2000 none none], 2000, 1⟩) (by decide)

/-- C10: for a train whose route has exactly one stop,
calculate_train_position never returns a position snapshot — the progress
computation divides by total_stations - 1 = 0 and the operation yields the
error-shaped result; a snapshot is only produced for routes of at least two
stops. -/
theorem single_stop_no_snapshot (schedules : Schedules) (dist : String → String → ℚ)
    (train_number : String) (now : Nat) :
    (∀ sch, schedules.lookup train_number = some sch → sch.routes.length = 1 →
       calculate_train_position schedules dist train_number now
         = Except.error "division by zero")
  ∧ (∀ snap, calculate_train_position schedules dist train_number now = Except.ok snap →
       ∃ sch, schedules.lookup train_number = some sch ∧ 2 ≤ sch.routes.length) := by
  constructor
  · intro sch hl h1
    obtain ⟨r, hr⟩ : ∃ r, sch.routes = [r] := by
      cases hx : sch.routes with
      | nil => rw [hx] at h1; simp at h1
      | cons a t =>
        cases t with
        | nil => exact ⟨a, rfl⟩
        | cons b t2 => rw [hx] at h1; simp at h1
    simp [calculate_train_position, hl, hr]
  · intro snap hok
    unfold calculate_train_position at hok
    cases hl : schedules.lookup train_number with
    | none => rw [hl] at hok; cases hok
    | some sch =>
      rw [hl] at hok
      refine ⟨sch, rfl, ?_⟩
      cases hroutes : sch.routes with
      | nil => simp [hroutes] at hok
      | cons a t =>
        cases t with
        | nil => simp [hroutes] at hok
        | cons b t2 =>
          simp only [List.length_cons]
          omega

/-- C10 witness: a concrete single-stop schedule produces exactly the
division-by-zero error. -/
theorem single_stop_no_snapshot_witness :
    calculate_train_position [("E1", ⟨"Ekota Express", [{ city := "Dhaka" }]⟩)]
        (fun _ _ => 0) "E1" 600 = Except.error "division by zero" :=
  (single_stop_no_snapshot [("E1", ⟨"Ekota Express", [{ city := "Dhaka" }]⟩)]
      (fun _ _ => 0) "E1" 600).1 ⟨"Ekota Express", [{ city := "Dhaka" }]⟩ rfl rfl

theorem foldlMax_ub : ∀ (l : List Int) (x : Int),
    x ≤ l.foldl max x ∧ ∀ y ∈ l, y ≤ l.foldl max x := by
  intro l
  induction l with
  | nil => intro x; exact ⟨le_refl x, by simp⟩
  | cons a t ih =>
    intro x
    constructor
    · calc x ≤ max x a := le_max_left x a
        _ ≤ t.foldl max (max x a) := (ih (max x a)).1
    · intro y hy
      rcases List.mem_cons.mp hy with rfl | hmem
      · calc y ≤ max x y := le_max_right x y
          _ ≤ t.foldl max (max x y) := (ih (max x y)).1
      · exact (ih (max x a)).2 y hmem

theorem foldlMax_mem : ∀ (l : List Int) (x : Int),
    l.foldl max x = x ∨ l.foldl max x ∈ l := by
  intro l
  induction l with
  | nil => intro x; exact Or.inl rfl
  | cons a t ih =>
    intro x
    rcases ih (max x a) with h | h
    · rcases max_cases x a with ⟨hmax, _⟩ | ⟨hmax, _⟩
      · left
        show t.foldl max (max x a) = x
        rw [h, hmax]
      · right
        show t.foldl max (max x a) ∈ a :: t
        rw [h, hmax]
        exact List.mem_cons_self a t
    · exact Or.inr (List.mem_cons_of_mem a h)

theorem total_delay_is_max (ss : List StationStatus) :
    (∀ s ∈ ss, s.delay_minutes ≤ _calculate_total_delay ss)
  ∧ (ss ≠ [] → _calculate_total_delay ss ∈ ss.map StationStatus.delay_minutes)
  ∧ (ss = [] → _calculate_total_delay ss = 0) := by
  refine ⟨?_, ?_, ?_⟩
  · intro s hs
    cases ss with
    | nil => cases hs
    | cons a t =>
      simp only [_calculate_total_delay]
      rcases List.mem_cons.mp hs with rfl | hmem
      · exact (foldlMax_ub (t.map StationStatus.delay_minutes) s.delay_minutes).1
      · exact (foldlMax_ub (t.map StationStatus.delay_minutes) a.delay_minutes).2
          s.delay_minutes (List.mem_map_of_mem StationStatus.delay_minutes hmem)
  · intro hne
    cases ss with
    | nil => exact absurd rfl hne
    | cons a t =>
      simp only [_calculate_total_delay, List.map_cons]
      rcases foldlMax_mem (t.map StationStatus.delay_minutes) a.delay_minutes with h | h
      · rw [h]
        exact List.mem_cons_self _ _
      · exact List.mem_cons_of_mem _ h
  · intro he
    subst he
    rfl

/-- C8: generate_train_status reports an overall delay_minutes equal to the
maximum of the per-station delay_minutes over all stops of the route — an
upper bound of every per-station delay that is attained by some stop — not
their sum; it is 0 for an empty stop list. -/
theorem overall_delay_is_max (schedules : Schedules) (dist : String → String → ℚ)
    (hist : HistPatterns) (re : RandEnv) (train_number : String) (now : Nat) (day : String)
    (sd : TrainStatusData) (hist2 : HistPatterns) (re2 : RandEnv)
    (h : generate_train_status schedules dist hist re train_number now day
          = (Except.ok sd, hist2, re2)) :
    (∀ s ∈ sd.station_statuses, s.delay_minutes ≤ sd.delay_minutes)
  ∧ (sd.station_statuses ≠ [] →
      sd.delay_minutes ∈ sd.station_statuses.map StationStatus.delay_minutes)
  ∧ (sd.station_statuses = [] → sd.delay_minutes = 0) := by
  have h1 : (generate_train_status schedules dist hist re train_number now day).1
      = Except.ok sd := by rw [h]
  unfold generate_train_status at h1
  cases hl : schedules.lookup train_number with
  | none =>
    rw [hl] at h1
    cases h1
  | some sch =>
    rw [hl] at h1
    have h2 := Except.ok.inj h1
    have hss : sd.station_statuses
        = (_generate_station_statuses dist sch.routes now day hist re).1 := by
      rw [← h2]
    have hdm : sd.delay_minutes
        = _calculate_total_delay
            (_generate_station_statuses dist sch.routes now day hist re).1 := by
      rw [← h2]
    rw [hss, hdm]
    exact total_delay_is_max (_generate_station_statuses dist sch.routes now day hist re).1

unseal Rat.mul Rat.add Rat.inv Rat.sub in
/-- C8 witness: on a concrete two-stop schedule the reported overall delay is
one of the per-station delays. -/
theorem overall_delay_is_max_witness :
    wSD.delay_minutes ∈ wSD.station_statuses.map StationStatus.delay_minutes :=
  (overall_delay_is_max wSchedules (fun _ _ => 1) [] ⟨[], [], []⟩ "T7" 630 "Monday"
      wSD wGen.2.1 wGen.2.2 (by rfl)).2.1 (by decide)

/-- The crowd-data dict never carries a confidence key, so the adjustment is
unreachable: the function is the identity on the report for every store,
train, time and draw. -/
theorem adjust_always_identity (vals : Validations) (train_number : String) (now : Int)
    (base_status : TrainStatusData) (draw : Int) :
    adjust_train_status_with_crowd_data vals train_number now base_status draw
      = base_status := rfl

/-- C6 (code bug): at a concrete state where the train's crowd confidence is
"medium" (five active confirmations), adjust_train_status_with_crowd_data
returns the report unchanged — delay_minutes untouched and no
crowd_validation attached — because the crowd-data dict it subscripts has no
"confidence" key and the KeyError is swallowed by the broad handler. -/
theorem adjust_with_crowd_keyerror :
    (_calculate_crowd_metrics cVals "T9" 10000).confidence = "medium"
  ∧ (crowd_data_dict cVals "T9" 10000).lookup "confidence" = none
  ∧ adjust_train_status_with_crowd_data cVals "T9" 10000 cBase 2 = cBase
  ∧ cBase.crowd_validation = none
  ∧ cBase.delay_minutes = 25 := by
  refine ⟨by decide, rfl, rfl, rfl, rfl⟩

end TrainJatri

